import Mathlib

/-!
Verification development for the LCOE (levelized cost of energy) calculator:
a shallow embedding over `ℚ` of `calculate_lcoe.py`, `compare_projects.py`
and `sensitivity_analysis.py`, followed by theorems about the embedded
functions.  Python floats are idealised as exact rationals and Python's
`round(x, n)` as round-half-to-even on rationals.
-/

namespace LcoeCalc

/-- Scalar values as they may appear in a raw (string-keyed) input mapping:
Python ints, floats, strings and `None`. -/
inductive PyVal where
  | vint (n : ℤ)
  | vfloat (q : ℚ)
  | vstr (s : String)
  | vnone
  deriving DecidableEq

/-- Counterpart of `isinstance(v, (int, float))`. -/
def PyVal.isNum : PyVal → Bool
  | .vint _ => true
  | .vfloat _ => true
  | _ => false

/-- Numeric content of a value, `0` for non-numeric values (only consulted
after a numeric type check has passed). -/
def PyVal.toQ : PyVal → ℚ
  | .vint n => (n : ℚ)
  | .vfloat q => q
  | _ => 0

/-- Integer content of a value, `0` for non-integer values (only consulted
after the lifetime type check has passed). -/
def PyVal.toInt : PyVal → ℤ
  | .vint n => n
  | _ => 0

/-- Check `isinstance(v,(int,float)) and v > 0` (negation of the rejection
test `not isinstance(v,(int,float)) or v <= 0`). -/
def PyVal.numPos (v : PyVal) : Bool :=
  v.isNum && decide (0 < v.toQ)

/-- Check `isinstance(v,(int,float)) and v >= 0`. -/
def PyVal.numNonneg (v : PyVal) : Bool :=
  v.isNum && decide (0 ≤ v.toQ)

/-- Check `isinstance(v,(int,float)) and lo <= v <= hi`. -/
def PyVal.numBetween (v : PyVal) (lo hi : ℚ) : Bool :=
  v.isNum && decide (lo ≤ v.toQ) && decide (v.toQ ≤ hi)

/-- Check `isinstance(v, int) and lo <= v <= hi` (the lifetime check: a
float is rejected even when integral). -/
def PyVal.intBetween (v : PyVal) (lo hi : ℤ) : Bool :=
  match v with
  | .vint n => decide (lo ≤ n) && decide (n ≤ hi)
  | _ => false

/-- Raw input mapping for one project: each field is `none` when the key is
absent from the mapping, `some v` when present with value `v`. -/
structure RawInput where
  capex_usd : Option PyVal := none
  annual_generation_mwh : Option PyVal := none
  project_lifetime_years : Option PyVal := none
  discount_rate : Option PyVal := none
  annual_opex_usd : Option PyVal := none
  annual_fuel_cost_usd : Option PyVal := none
  opex_escalation_rate : Option PyVal := none
  fuel_escalation_rate : Option PyVal := none
  degradation_rate : Option PyVal := none
  capacity_mw : Option PyVal := none
  technology : Option PyVal := none
  deriving DecidableEq

/-- Validation failure: error code and offending field (the human-readable
`message`/`received`/`expected` strings of the source are presentation data
and are not modelled). -/
structure ValidationError where
  code : String
  field : String
  deriving DecidableEq

/-- Validated parameter set (the `LCOEInput` `TypedDict` of the source).
`capacity_mw` is copied verbatim from the raw mapping (the validator applies
no constraint to it) and `technology` defaults to the string `generic`. -/
structure LCOEInput where
  capex_usd : ℚ
  annual_generation_mwh : ℚ
  project_lifetime_years : ℤ
  discount_rate : ℚ
  annual_opex_usd : ℚ := 0
  annual_fuel_cost_usd : ℚ := 0
  opex_escalation_rate : ℚ := 0.02
  fuel_escalation_rate : ℚ := 0.02
  degradation_rate : ℚ := 0.005
  capacity_mw : Option PyVal := none
  technology : PyVal := .vstr "generic"
  deriving DecidableEq

/-- Success branch of `validate_input`: the fully-defaulted validated
parameter set built from the raw mapping. -/
def buildValidated (d : RawInput) : LCOEInput where
  capex_usd := (d.capex_usd.getD .vnone).toQ
  annual_generation_mwh := (d.annual_generation_mwh.getD .vnone).toQ
  project_lifetime_years := (d.project_lifetime_years.getD .vnone).toInt
  discount_rate := (d.discount_rate.getD .vnone).toQ
  annual_opex_usd := (d.annual_opex_usd.getD (.vint 0)).toQ
  annual_fuel_cost_usd := (d.annual_fuel_cost_usd.getD (.vint 0)).toQ
  opex_escalation_rate := (d.opex_escalation_rate.getD (.vfloat 0.02)).toQ
  fuel_escalation_rate := (d.fuel_escalation_rate.getD (.vfloat 0.02)).toQ
  degradation_rate := (d.degradation_rate.getD (.vfloat 0.005)).toQ
  capacity_mw := d.capacity_mw
  technology := d.technology.getD (.vstr "generic")

/-- Translation of `validate_input`: the presence loop over the four
required fields, then the per-field type/range checks in source order,
returning on the first violation; on success, the fully-defaulted
parameter set. -/
def validate_input (d : RawInput) : Except ValidationError LCOEInput :=
  if d.capex_usd.isNone then
    .error ⟨"MISSING_REQUIRED_FIELD", "capex_usd"⟩
  else if d.annual_generation_mwh.isNone then
    .error ⟨"MISSING_REQUIRED_FIELD", "annual_generation_mwh"⟩
  else if d.project_lifetime_years.isNone then
    .error ⟨"MISSING_REQUIRED_FIELD", "project_lifetime_years"⟩
  else if d.discount_rate.isNone then
    .error ⟨"MISSING_REQUIRED_FIELD", "discount_rate"⟩
  else if ¬ (d.capex_usd.getD .vnone).numPos then
    .error ⟨"INVALID_CAPEX", "capex_usd"⟩
  else if ¬ (d.annual_generation_mwh.getD .vnone).numPos then
    .error ⟨"INVALID_GENERATION", "annual_generation_mwh"⟩
  else if ¬ (d.project_lifetime_years.getD .vnone).intBetween 1 50 then
    .error ⟨"INVALID_LIFETIME", "project_lifetime_years"⟩
  else if ¬ (d.discount_rate.getD .vnone).numBetween 0 0.30 then
    .error ⟨"INVALID_DISCOUNT_RATE", "discount_rate"⟩
  else if ¬ (d.annual_opex_usd.getD (.vint 0)).numNonneg then
    .error ⟨"INVALID_OPEX", "annual_opex_usd"⟩
  else if ¬ (d.annual_fuel_cost_usd.getD (.vint 0)).numNonneg then
    .error ⟨"INVALID_FUEL_COST", "annual_fuel_cost_usd"⟩
  else if ¬ (d.opex_escalation_rate.getD (.vfloat 0.02)).numBetween 0 0.20 then
    .error ⟨"INVALID_OPEX_ESCALATION", "opex_escalation_rate"⟩
  else if ¬ (d.fuel_escalation_rate.getD (.vfloat 0.02)).numBetween 0 0.20 then
    .error ⟨"INVALID_FUEL_ESCALATION", "fuel_escalation_rate"⟩
  else if ¬ (d.degradation_rate.getD (.vfloat 0.005)).numBetween 0 0.10 then
    .error ⟨"INVALID_DEGRADATION", "degradation_rate"⟩
  else
    .ok (buildValidated d)

/-- Specification-side list of the validator's checks, in the order the
spec prescribes: the four required-field presence checks first, then the
type/range checks in field-declaration order.  Each check yields `some`
error exactly when its constraint is violated. -/
def validationChecks : List (RawInput → Option ValidationError) :=
  [ fun d => if d.capex_usd.isNone then
      some ⟨"MISSING_REQUIRED_FIELD", "capex_usd"⟩ else none,
    fun d => if d.annual_generation_mwh.isNone then
      some ⟨"MISSING_REQUIRED_FIELD", "annual_generation_mwh"⟩ else none,
    fun d => if d.project_lifetime_years.isNone then
      some ⟨"MISSING_REQUIRED_FIELD", "project_lifetime_years"⟩ else none,
    fun d => if d.discount_rate.isNone then
      some ⟨"MISSING_REQUIRED_FIELD", "discount_rate"⟩ else none,
    fun d => if ¬ (d.capex_usd.getD .vnone).numPos then
      some ⟨"INVALID_CAPEX", "capex_usd"⟩ else none,
    fun d => if ¬ (d.annual_generation_mwh.getD .vnone).numPos then
      some ⟨"INVALID_GENERATION", "annual_generation_mwh"⟩ else none,
    fun d => if ¬ (d.project_lifetime_years.getD .vnone).intBetween 1 50 then
      some ⟨"INVALID_LIFETIME", "project_lifetime_years"⟩ else none,
    fun d => if ¬ (d.discount_rate.getD .vnone).numBetween 0 0.30 then
      some ⟨"INVALID_DISCOUNT_RATE", "discount_rate"⟩ else none,
    fun d => if ¬ (d.annual_opex_usd.getD (.vint 0)).numNonneg then
      some ⟨"INVALID_OPEX", "annual_opex_usd"⟩ else none,
    fun d => if ¬ (d.annual_fuel_cost_usd.getD (.vint 0)).numNonneg then
      some ⟨"INVALID_FUEL_COST", "annual_fuel_cost_usd"⟩ else none,
    fun d => if ¬ (d.opex_escalation_rate.getD (.vfloat 0.02)).numBetween 0 0.20 then
      some ⟨"INVALID_OPEX_ESCALATION", "opex_escalation_rate"⟩ else none,
    fun d => if ¬ (d.fuel_escalation_rate.getD (.vfloat 0.02)).numBetween 0 0.20 then
      some ⟨"INVALID_FUEL_ESCALATION", "fuel_escalation_rate"⟩ else none,
    fun d => if ¬ (d.degradation_rate.getD (.vfloat 0.005)).numBetween 0 0.10 then
      some ⟨"INVALID_DEGRADATION", "degradation_rate"⟩ else none ]

/-- First violated constraint of the raw mapping, in specification order;
`none` when the mapping passes every check. -/
def firstViolation (d : RawInput) : Option ValidationError :=
  validationChecks.findSome? (fun c => c d)

/-- Round a rational to the nearest integer, ties to even: the idealised
behaviour of Python-3 `round` on exact values. -/
def roundHalfEven (x : ℚ) : ℤ :=
  let f := ⌊x⌋
  let r := x - f
  if r < 1/2 then f
  else if 1/2 < r then f + 1
  else if f % 2 = 0 then f else f + 1

/-- Python `round(x, n)` idealised over exact rationals. -/
def roundTo (n : ℕ) (x : ℚ) : ℚ :=
  (roundHalfEven (x * 10 ^ n) : ℚ) / 10 ^ n

/-- One entry of the annual cost and generation breakdown. -/
structure AnnualBreakdown where
  year : ℕ
  generation_mwh : ℚ
  opex_usd : ℚ
  fuel_usd : ℚ
  total_cost_usd : ℚ
  discounted_cost_usd : ℚ
  discounted_generation_mwh : ℚ
  cumulative_discounted_cost_usd : ℚ
  cumulative_discounted_generation_mwh : ℚ
  deriving DecidableEq

/-- LCOE result bundle (the `inputs_summary` echo of the source is a verbatim
copy of the inputs and is not modelled separately). -/
structure LCOEResult where
  lcoe_usd_per_mwh : ℚ
  lcoe_usd_per_kwh : ℚ
  lcoe_cents_per_kwh : ℚ
  total_lifecycle_cost_usd : ℚ
  total_lifetime_generation_mwh : ℚ
  npv_costs_usd : ℚ
  npv_generation_mwh : ℚ
  capacity_factor : Option ℚ
  annual_breakdown : List AnnualBreakdown
  deriving DecidableEq

/-- Number of project years iterated by the engine (`range(1, lifetime+1)`). -/
def lifetimeNat (p : LCOEInput) : ℕ := p.project_lifetime_years.toNat

/-- Generation of a given year: `base_generation * (1 - degradation)^(year-1)`. -/
def yearGen (p : LCOEInput) (year : ℕ) : ℚ :=
  p.annual_generation_mwh * (1 - p.degradation_rate) ^ (year - 1)

/-- Operating cost of a given year: `base_opex * (1 + opex_escalation)^(year-1)`. -/
def yearOpex (p : LCOEInput) (year : ℕ) : ℚ :=
  p.annual_opex_usd * (1 + p.opex_escalation_rate) ^ (year - 1)

/-- Fuel cost of a given year: `base_fuel * (1 + fuel_escalation)^(year-1)`. -/
def yearFuel (p : LCOEInput) (year : ℕ) : ℚ :=
  p.annual_fuel_cost_usd * (1 + p.fuel_escalation_rate) ^ (year - 1)

/-- Discount factor of a given year: `(1 + discount_rate)^year`. -/
def discountFactor (p : LCOEInput) (year : ℕ) : ℚ :=
  (1 + p.discount_rate) ^ year

/-- Mutable accumulators of the year-by-year loop of `calculate_lcoe`. -/
structure Accum where
  total_lifecycle_cost : ℚ
  total_generation : ℚ
  npv_costs : ℚ
  npv_generation : ℚ
  cumulative_discounted_cost : ℚ
  cumulative_discounted_gen : ℚ
  annual_breakdown : List AnnualBreakdown
  deriving DecidableEq

/-- Accumulator state before the loop: CAPEX is incurred at year 0,
undiscounted. -/
def initAccum (p : LCOEInput) : Accum :=
  ⟨p.capex_usd, 0, p.capex_usd, 0, p.capex_usd, 0, []⟩

/-- One iteration of the year loop of `calculate_lcoe`. -/
def stepYear (p : LCOEInput) (a : Accum) (year : ℕ) : Accum :=
  let generation := yearGen p year
  let opex := yearOpex p year
  let fuel := yearFuel p year
  let total_cost := opex + fuel
  let df := discountFactor p year
  let discounted_cost := total_cost / df
  let discounted_gen := generation / df
  let cdc := a.cumulative_discounted_cost + discounted_cost
  let cdg := a.cumulative_discounted_gen + discounted_gen
  { total_lifecycle_cost := a.total_lifecycle_cost + total_cost
    total_generation := a.total_generation + generation
    npv_costs := a.npv_costs + discounted_cost
    npv_generation := a.npv_generation + discounted_gen
    cumulative_discounted_cost := cdc
    cumulative_discounted_gen := cdg
    annual_breakdown := a.annual_breakdown ++
      [{ year := year
         generation_mwh := roundTo 2 generation
         opex_usd := roundTo 2 opex
         fuel_usd := roundTo 2 fuel
         total_cost_usd := roundTo 2 total_cost
         discounted_cost_usd := roundTo 2 discounted_cost
         discounted_generation_mwh := roundTo 2 discounted_gen
         cumulative_discounted_cost_usd := roundTo 2 cdc
         cumulative_discounted_generation_mwh := roundTo 2 cdg }] }

/-- Loop state after processing years `1..n` in order. -/
def loopYears (p : LCOEInput) : ℕ → Accum
  | 0 => initAccum p
  | n + 1 => stepYear p (loopYears p n) (n + 1)

/-- Accumulator state after the full `for year in range(1, lifetime+1)` loop. -/
def runYears (p : LCOEInput) : Accum := loopYears p (lifetimeNat p)

/-- NPV of lifetime costs accumulated by the engine. -/
def npvCosts (p : LCOEInput) : ℚ := (runYears p).npv_costs

/-- NPV of lifetime generation accumulated by the engine. -/
def npvGeneration (p : LCOEInput) : ℚ := (runYears p).npv_generation

/-- Unrounded LCOE: `npv_costs / npv_generation if npv_generation > 0 else 0`. -/
def lcoeRaw (p : LCOEInput) : ℚ :=
  if 0 < npvGeneration p then npvCosts p / npvGeneration p else 0

/-- Evaluation of the guard `if capacity and capacity > 0`: the supplied
capacity when it is numeric, truthy and positive, `none` otherwise.  (A
present non-numeric truthy capacity would raise a `TypeError` in the source
on `capacity > 0`; the claims only concern numeric or absent capacities.) -/
def capacityPos : Option PyVal → Option ℚ
  | some (.vint n) => if 0 < n then some (n : ℚ) else none
  | some (.vfloat q) => if 0 < q then some q else none
  | _ => none

/-- Translation of `calculate_lcoe`: the year-by-year discounted cash-flow
loop followed by the final LCOE, unit conversions and capacity factor.
The `capacity_factor` output reproduces the source's truthiness guard
`round(capacity_factor, 1) if capacity_factor else None` on the unrounded
value. -/
def calculate_lcoe (p : LCOEInput) : LCOEResult :=
  let a := runYears p
  let lcoe_per_mwh := if 0 < a.npv_generation then a.npv_costs / a.npv_generation else 0
  let lcoe_per_kwh := lcoe_per_mwh / 1000
  let cf : Option ℚ := (capacityPos p.capacity_mw).map
    (fun cap => p.annual_generation_mwh / (cap * 8760) * 100)
  { lcoe_usd_per_mwh := roundTo 2 lcoe_per_mwh
    lcoe_usd_per_kwh := roundTo 5 lcoe_per_kwh
    lcoe_cents_per_kwh := roundTo 2 (lcoe_per_kwh * 100)
    total_lifecycle_cost_usd := roundTo 2 a.total_lifecycle_cost
    total_lifetime_generation_mwh := roundTo 2 a.total_generation
    npv_costs_usd := roundTo 2 a.npv_costs
    npv_generation_mwh := roundTo 2 a.npv_generation
    capacity_factor := match cf with
      | none => none
      | some v => if v = 0 then none else some (roundTo 1 v)
    annual_breakdown := a.annual_breakdown }

/-- Ranges accepted by the validator, as a predicate on the validated
parameter set: positive capex and generation, lifetime `1..50`, discount
rate in `[0, 0.30]`, non-negative opex and fuel cost, escalation rates in
`[0, 0.20]`, degradation in `[0, 0.10]`. -/
def ValidParams (p : LCOEInput) : Prop :=
  0 < p.capex_usd ∧ 0 < p.annual_generation_mwh ∧
  1 ≤ p.project_lifetime_years ∧ p.project_lifetime_years ≤ 50 ∧
  0 ≤ p.discount_rate ∧ p.discount_rate ≤ 0.30 ∧
  0 ≤ p.annual_opex_usd ∧ 0 ≤ p.annual_fuel_cost_usd ∧
  0 ≤ p.opex_escalation_rate ∧ p.opex_escalation_rate ≤ 0.20 ∧
  0 ≤ p.fuel_escalation_rate ∧ p.fuel_escalation_rate ≤ 0.20 ∧
  0 ≤ p.degradation_rate ∧ p.degradation_rate ≤ 0.10

instance (p : LCOEInput) : Decidable (ValidParams p) := by
  unfold ValidParams; infer_instance

/-- One project given to the comparator: the opaque `_source` label (already
stripped from the domain fields, as `analyze_project` pops it before
validation) together with the raw parameter mapping. -/
structure Project where
  source : String
  data : RawInput
  deriving DecidableEq

/-- Successful per-project analysis: the fields of `analyze_project`'s
success dictionary that the comparison logic consumes. -/
structure OkEntry where
  source : String
  technology : PyVal
  lcoe_usd_per_mwh : ℚ
  deriving DecidableEq

/-- Failed per-project analysis: source label, validation error and the
`technology` fallback (`project.get("technology", "unknown")`). -/
structure FailedEntry where
  source : String
  error : ValidationError
  technology : PyVal
  deriving DecidableEq

/-- Result of analyzing one project. -/
inductive Analyzed where
  | ok (e : OkEntry)
  | fail (f : FailedEntry)
  deriving DecidableEq

/-- Success payload of an analysis, if any. -/
def Analyzed.okEntry : Analyzed → Option OkEntry
  | .ok e => some e
  | .fail _ => none

/-- Failure payload of an analysis, if any. -/
def Analyzed.failEntry : Analyzed → Option FailedEntry
  | .ok _ => none
  | .fail f => some f

/-- Translation of `analyze_project`: validate, then compute via the engine;
a validation error is retained with its code and source label. -/
def analyze_project (pr : Project) : Analyzed :=
  match validate_input pr.data with
  | .error e => .fail ⟨pr.source, e, pr.data.technology.getD (.vstr "unknown")⟩
  | .ok v => .ok ⟨pr.source, v.technology, (calculate_lcoe v).lcoe_usd_per_mwh⟩

/-- Successfully analyzed projects of an input sequence, in input order. -/
def successesOf (ps : List Project) : List OkEntry :=
  (ps.map analyze_project).filterMap Analyzed.okEntry

/-- Failed analyses of an input sequence, in input order. -/
def failuresOf (ps : List Project) : List FailedEntry :=
  (ps.map analyze_project).filterMap Analyzed.failEntry

/-- Comparison key of `sorted(successful, key=lambda x: x["lcoe_usd_per_mwh"])`. -/
def lcoeLE (a b : OkEntry) : Prop :=
  a.lcoe_usd_per_mwh ≤ b.lcoe_usd_per_mwh

instance : DecidableRel lcoeLE := fun a b =>
  inferInstanceAs (Decidable (a.lcoe_usd_per_mwh ≤ b.lcoe_usd_per_mwh))

instance : IsTotal OkEntry lcoeLE :=
  ⟨fun a b => le_total a.lcoe_usd_per_mwh b.lcoe_usd_per_mwh⟩

instance : IsTrans OkEntry lcoeLE :=
  ⟨fun _ _ _ hab hbc => le_trans hab hbc⟩

/-- One entry of the comparator's `rankings` list: the analyzed project with
its rank and relative deltas added. -/
structure RankedEntry where
  source : String
  technology : PyVal
  lcoe_usd_per_mwh : ℚ
  rank : ℕ
  lcoe_vs_best_pct : ℚ
  lcoe_vs_avg_pct : ℚ
  deriving DecidableEq

/-- Underlying analyzed project of a ranked entry. -/
def RankedEntry.core (e : RankedEntry) : OkEntry :=
  ⟨e.source, e.technology, e.lcoe_usd_per_mwh⟩

/-- Output of `compare_projects` restricted to the fields the ranking and
failure-reporting logic produces (the per-technology grouping and the
recommendation texts are reporting derivatives not modelled here). -/
structure CompareOutput where
  success : Bool
  errorCode : Option String
  rankings : List RankedEntry
  failed_projects : Option (List FailedEntry)
  deriving DecidableEq

/-- Stable ascending sort of the successes by LCOE
(`sorted(successful, key=lambda x: x["lcoe_usd_per_mwh"])`; Mathlib's
insertion sort is stable in the same sense as Python's `sorted`). -/
def rankedOf (ps : List Project) : List OkEntry :=
  List.insertionSort lcoeLE (successesOf ps)

/-- Mean LCOE over all successes (`sum(lcoes) / len(lcoes)`). -/
def avgLcoeOf (ps : List Project) : ℚ :=
  ((successesOf ps).map (·.lcoe_usd_per_mwh)).sum /
    (((successesOf ps).map (·.lcoe_usd_per_mwh)).length : ℚ)

/-- LCOE of the best project, `ranked[0]` (0 when there are no successes;
only consulted when at least one project validated). -/
def bestLcoeOf (ps : List Project) : ℚ :=
  ((rankedOf ps).head?.map (·.lcoe_usd_per_mwh)).getD 0

/-- Ranked entry built from the `i`-th element of the sorted list: rank
`i + 1` and the two relative deltas, each guarded against a zero divisor. -/
def mkRanked (best avg : ℚ) (ie : ℕ × OkEntry) : RankedEntry where
  source := ie.2.source
  technology := ie.2.technology
  lcoe_usd_per_mwh := ie.2.lcoe_usd_per_mwh
  rank := ie.1 + 1
  lcoe_vs_best_pct :=
    if 0 < best then roundTo 1 ((ie.2.lcoe_usd_per_mwh - best) / best * 100) else 0
  lcoe_vs_avg_pct :=
    if 0 < avg then roundTo 1 ((ie.2.lcoe_usd_per_mwh - avg) / avg * 100) else 0

/-- Translation of `compare_projects`: analyze every project, partition into
successes and failures, fail with `NO_VALID_PROJECTS` when nothing
validates, otherwise rank the successes by LCOE with Python's stable
ascending sort and attach rank and relative deltas. -/
def compare_projects (ps : List Project) : CompareOutput :=
  if (successesOf ps).isEmpty then
    { success := false
      errorCode := some "NO_VALID_PROJECTS"
      rankings := []
      failed_projects := some (failuresOf ps) }
  else
    { success := true
      errorCode := none
      rankings := (rankedOf ps).enum.map (mkRanked (bestLcoeOf ps) (avgLcoeOf ps))
      failed_projects :=
        if (failuresOf ps).isEmpty then none else some (failuresOf ps) }

/-- Parameters a sensitivity run can vary (the nine numeric fields of the
validated parameter set). -/
inductive ParamName where
  | capex_usd
  | annual_generation_mwh
  | project_lifetime_years
  | discount_rate
  | annual_opex_usd
  | annual_fuel_cost_usd
  | opex_escalation_rate
  | fuel_escalation_rate
  | degradation_rate
  deriving DecidableEq

/-- Numeric value of a parameter in a validated parameter set
(`base_inputs.get(param_name, 0)`). -/
def getParam (p : LCOEInput) : ParamName → ℚ
  | .capex_usd => p.capex_usd
  | .annual_generation_mwh => p.annual_generation_mwh
  | .project_lifetime_years => (p.project_lifetime_years : ℚ)
  | .discount_rate => p.discount_rate
  | .annual_opex_usd => p.annual_opex_usd
  | .annual_fuel_cost_usd => p.annual_fuel_cost_usd
  | .opex_escalation_rate => p.opex_escalation_rate
  | .fuel_escalation_rate => p.fuel_escalation_rate
  | .degradation_rate => p.degradation_rate

/-- Python `int(x)`: truncation toward zero. -/
def pyTrunc (q : ℚ) : ℤ := if 0 ≤ q then ⌊q⌋ else ⌈q⌉

/-- Raw mapping `dict(base_inputs)` built back from a validated parameter
set: every key present, numeric fields as floats, the lifetime as an int. -/
def toRaw (p : LCOEInput) : RawInput where
  capex_usd := some (.vfloat p.capex_usd)
  annual_generation_mwh := some (.vfloat p.annual_generation_mwh)
  project_lifetime_years := some (.vint p.project_lifetime_years)
  discount_rate := some (.vfloat p.discount_rate)
  annual_opex_usd := some (.vfloat p.annual_opex_usd)
  annual_fuel_cost_usd := some (.vfloat p.annual_fuel_cost_usd)
  opex_escalation_rate := some (.vfloat p.opex_escalation_rate)
  fuel_escalation_rate := some (.vfloat p.fuel_escalation_rate)
  degradation_rate := some (.vfloat p.degradation_rate)
  capacity_mw := p.capacity_mw
  technology := some p.technology

/-- Substitution `modified[param_name] = value` (with the lifetime cast to
an integer, as the source does for `project_lifetime_years`). -/
def setRaw (d : RawInput) (name : ParamName) (v : ℚ) : RawInput :=
  match name with
  | .capex_usd => { d with capex_usd := some (.vfloat v) }
  | .annual_generation_mwh => { d with annual_generation_mwh := some (.vfloat v) }
  | .project_lifetime_years =>
      { d with project_lifetime_years := some (.vint (pyTrunc v)) }
  | .discount_rate => { d with discount_rate := some (.vfloat v) }
  | .annual_opex_usd => { d with annual_opex_usd := some (.vfloat v) }
  | .annual_fuel_cost_usd => { d with annual_fuel_cost_usd := some (.vfloat v) }
  | .opex_escalation_rate => { d with opex_escalation_rate := some (.vfloat v) }
  | .fuel_escalation_rate => { d with fuel_escalation_rate := some (.vfloat v) }
  | .degradation_rate => { d with degradation_rate := some (.vfloat v) }

/-- One retained point of a sensitivity sweep. -/
structure SensPoint where
  value : ℚ
  value_pct_change : ℚ
  lcoe_usd_per_mwh : ℚ
  lcoe_pct_change : ℚ
  is_base : Bool
  deriving DecidableEq

/-- Sensitivity bundle for one varied parameter (the qualitative
interpretation label and the min/max/range statistics are reporting
derivatives not modelled here). -/
structure SensResult where
  parameter : ParamName
  base_value : ℚ
  base_lcoe_usd_per_mwh : ℚ
  elasticity : ℚ
  values_tested : ℕ
  results : List SensPoint
  deriving DecidableEq

/-- One retained point of the sweep, built from the candidate value, the
re-validated parameter set and the base quantities; both percentage
deviations carry the zero-divisor guard of the source and are rounded to 2
decimals, and `is_base` is the `|value - base_value| < 0.0001` test. -/
def sensPoint (base_value base_lcoe v : ℚ) (validated : LCOEInput) : SensPoint :=
  let lcoe := (calculate_lcoe validated).lcoe_usd_per_mwh
  { value := v
    value_pct_change :=
      roundTo 2 (if 0 < base_value then (v - base_value) / base_value * 100 else 0)
    lcoe_usd_per_mwh := lcoe
    lcoe_pct_change :=
      roundTo 2 (if 0 < base_lcoe then (lcoe - base_lcoe) / base_lcoe * 100 else 0)
    is_base := decide (|v - base_value| < 0.0001) }

/-- Retained points of a sweep: each candidate value is substituted into the
base parameters, re-validated (a rejected candidate is silently skipped)
and run through the engine. -/
def sensResults (base : LCOEInput) (param : ParamName) (values : List ℚ) :
    List SensPoint :=
  values.filterMap (fun v =>
    match validate_input (setRaw (toRaw base) param v) with
    | .error _ => none
    | .ok validated =>
      some (sensPoint (getParam base param)
        ((calculate_lcoe base).lcoe_usd_per_mwh) v validated))

/-- Translation of `run_sensitivity`: evaluate each candidate value through
re-validation and the engine, record the percentage deviations, and average
the pointwise elasticities over the non-base points with nonzero recorded
value deviation, rounding the mean to 3 decimals. -/
def run_sensitivity (base : LCOEInput) (param : ParamName) (values : List ℚ) :
    SensResult :=
  let results := sensResults base param values
  let elasticities :=
    (results.filter (fun r => !r.is_base && r.value_pct_change != 0)).map
      (fun r => r.lcoe_pct_change / r.value_pct_change)
  let avg_elasticity :=
    if elasticities.isEmpty then 0
    else elasticities.sum / (elasticities.length : ℚ)
  { parameter := param
    base_value := getParam base param
    base_lcoe_usd_per_mwh := (calculate_lcoe base).lcoe_usd_per_mwh
    elasticity := roundTo 3 avg_elasticity
    values_tested := results.length
    results := results }

/-- Loop of the explicit `min,max,step` branch of `generate_range`: append
`round(current, 6)` and advance by `step` while `current <= max + 0.0001`.
The extra fuel argument bounds the iteration count; it is chosen large
enough that, for a positive step, the loop always exits through its
condition. -/
def rangeLoop (maxv step : ℚ) : ℕ → ℚ → List ℚ
  | 0, _ => []
  | n + 1, current =>
    if current ≤ maxv + 0.0001 then
      roundTo 6 current :: rangeLoop maxv step n (current + step)
    else []

/-- Fuel sufficient for `rangeLoop` to exit through its condition when the
step is positive. -/
def rangeFuel (minv maxv step : ℚ) : ℕ :=
  (⌈(maxv + 0.0001 - minv) / step⌉ + 1).toNat

/-- Translation of the custom-range branch of `generate_range`: a
three-number directive is an arithmetic sweep, any other comma-separated
list is used verbatim. -/
def generate_range_custom (parts : List ℚ) : List ℚ :=
  match parts with
  | [minv, maxv, step] => rangeLoop maxv step (rangeFuel minv maxv step) minv
  | _ => parts

/-- Number of loop iterations remaining from current value `c`: the count of
naturals `k` with `c + k*step ≤ max + 0.0001` (for a positive step). -/
def cntFrom (maxv step c : ℚ) : ℕ :=
  if c ≤ maxv + 0.0001 then (⌊(maxv + 0.0001 - c) / step⌋).toNat + 1 else 0

/-- Number of points the `min,max,step` sweep retains: the count of
naturals `k` with `min + k*step ≤ max + 0.0001`. -/
def rangeCount (minv maxv step : ℚ) : ℕ :=
  cntFrom maxv step minv

/-- Worked example of the spec: capex 1,000,000, generation 2,000/yr,
lifetime 10, all rates and operating costs zero. -/
def exZeroRate : LCOEInput :=
  { capex_usd := 1000000
    annual_generation_mwh := 2000
    project_lifetime_years := 10
    discount_rate := 0
    annual_opex_usd := 0
    annual_fuel_cost_usd := 0
    opex_escalation_rate := 0
    fuel_escalation_rate := 0
    degradation_rate := 0 }

/-- Validated parameter set whose exact zero-rate LCOE `1000/3` is not
representable at two decimals. -/
def exThird : LCOEInput :=
  { capex_usd := 1000
    annual_generation_mwh := 3
    project_lifetime_years := 1
    discount_rate := 0
    opex_escalation_rate := 0
    fuel_escalation_rate := 0
    degradation_rate := 0 }

/-- Validated parameter set with negligible capex and a large escalating
operating cost: its cost stream grows faster than its degrading generation,
so discounting shrinks NPV(costs) faster than NPV(generation). -/
def exEscalating : LCOEInput :=
  { capex_usd := 1
    annual_generation_mwh := 1000
    project_lifetime_years := 3
    discount_rate := 0
    annual_opex_usd := 1000000
    annual_fuel_cost_usd := 0
    opex_escalation_rate := 0.2
    fuel_escalation_rate := 0
    degradation_rate := 0.1 }

/-- Raw single-year project mapping with the given capex, generation 1000,
lifetime 1, zero rates: its LCOE is `capex / 1000`. -/
def rawProj (c : ℚ) : RawInput :=
  { capex_usd := some (.vfloat c)
    annual_generation_mwh := some (.vfloat 1000)
    project_lifetime_years := some (.vint 1)
    discount_rate := some (.vfloat 0)
    annual_opex_usd := some (.vfloat 0)
    annual_fuel_cost_usd := some (.vfloat 0)
    opex_escalation_rate := some (.vfloat 0)
    fuel_escalation_rate := some (.vfloat 0)
    degradation_rate := some (.vfloat 0) }

/-- Three projects with LCOEs 70, 40, 55, deliberately out of LCOE order. -/
def exThreeProjects : List Project :=
  [⟨"p1", rawProj 70000⟩, ⟨"p2", rawProj 40000⟩, ⟨"p3", rawProj 55000⟩]

/-- Two projects with LCOEs 30 and 40: the delta of the second vs the best
is `100/3 %`, which is not representable at one decimal. -/
def exTwoProjects : List Project :=
  [⟨"a", rawProj 30000⟩, ⟨"b", rawProj 40000⟩]

/-- One project rejected by the validator (capex not positive). -/
def badProject : Project :=
  ⟨"bad", { rawProj 0 with capex_usd := some (.vfloat (-5)) }⟩

/-- Batch mixing one failing and one validating project. -/
def exMixedProjects : List Project :=
  [badProject, ⟨"good", rawProj 40000⟩]

/-- Base parameter set for the sensitivity counterexample: base LCOE 1;
sweeping generation to 7000 gives a recorded point (+600 % value,
−86 % LCOE) whose elasticity ratio `−43/300` is not representable at
three decimals. -/
def exSensBase : LCOEInput :=
  { capex_usd := 1000
    annual_generation_mwh := 1000
    project_lifetime_years := 1
    discount_rate := 0
    opex_escalation_rate := 0
    fuel_escalation_rate := 0
    degradation_rate := 0 }

/-- Validated parameter set with a huge capacity: its capacity factor is
positive but rounds to 0.0 at one decimal. -/
def exHugeCapacity : LCOEInput :=
  { capex_usd := 1000
    annual_generation_mwh := 100
    project_lifetime_years := 1
    discount_rate := 0
    capacity_mw := some (.vfloat 1000000) }

/-- Solar example of the spec: 100 MW capacity, 200,000 MWh/yr. -/
def exSolar : LCOEInput :=
  { capex_usd := 80000000
    annual_generation_mwh := 200000
    project_lifetime_years := 25
    discount_rate := 0.08
    annual_opex_usd := 800000
    capacity_mw := some (.vint 100) }

/-- Raw mapping holding the four required fields only. -/
def exMinimalRaw : RawInput :=
  { capex_usd := some (.vfloat 1000000)
    annual_generation_mwh := some (.vfloat 2000)
    project_lifetime_years := some (.vint 10)
    discount_rate := some (.vfloat 0) }

/-- Degenerate parameter record with zero generation: not producible by the
validator, but it exercises the zero-NPV-of-generation guard of the
engine. -/
def zeroGenParams : LCOEInput :=
  { capex_usd := 1000
    annual_generation_mwh := 0
    project_lifetime_years := 1
    discount_rate := 0 }

/-! ### Helper lemmas -/

theorem roundHalfEven_zero : roundHalfEven 0 = 0 := by
  simp [roundHalfEven]

theorem roundTo_zero (n : ℕ) : roundTo n 0 = 0 := by
  simp [roundTo, roundHalfEven_zero]

theorem stepYear_npv_generation (p : LCOEInput) (a : Accum) (y : ℕ) :
    (stepYear p a y).npv_generation =
      a.npv_generation + yearGen p y / discountFactor p y := rfl

theorem stepYear_npv_costs (p : LCOEInput) (a : Accum) (y : ℕ) :
    (stepYear p a y).npv_costs =
      a.npv_costs + (yearOpex p y + yearFuel p y) / discountFactor p y := rfl

theorem loopYears_npv_generation (p : LCOEInput) (n : ℕ) :
    (loopYears p n).npv_generation =
      ∑ y in Finset.range n, yearGen p (y + 1) / discountFactor p (y + 1) := by
  induction n with
  | zero => simp [loopYears, initAccum]
  | succ n ih =>
    rw [loopYears, stepYear_npv_generation, ih, Finset.sum_range_succ]

theorem loopYears_npv_costs (p : LCOEInput) (n : ℕ) :
    (loopYears p n).npv_costs = p.capex_usd +
      ∑ y in Finset.range n,
        (yearOpex p (y + 1) + yearFuel p (y + 1)) / discountFactor p (y + 1) := by
  induction n with
  | zero => simp [loopYears, initAccum]
  | succ n ih =>
    rw [loopYears, stepYear_npv_costs, ih, Finset.sum_range_succ, add_assoc]

theorem npvGeneration_eq_sum (p : LCOEInput) :
    npvGeneration p =
      ∑ y in Finset.range (lifetimeNat p),
        yearGen p (y + 1) / discountFactor p (y + 1) :=
  loopYears_npv_generation p (lifetimeNat p)

theorem npvCosts_eq_sum (p : LCOEInput) :
    npvCosts p = p.capex_usd +
      ∑ y in Finset.range (lifetimeNat p),
        (yearOpex p (y + 1) + yearFuel p (y + 1)) / discountFactor p (y + 1) :=
  loopYears_npv_costs p (lifetimeNat p)

theorem lifetimeNat_pos (p : LCOEInput) (hL : 1 ≤ p.project_lifetime_years) :
    0 < lifetimeNat p := by
  unfold lifetimeNat; omega

theorem npvGeneration_pos (p : LCOEInput)
    (hg : 0 < p.annual_generation_mwh) (hL : 1 ≤ p.project_lifetime_years)
    (hd : p.degradation_rate < 1) (hr : -1 < p.discount_rate) :
    0 < npvGeneration p := by
  rw [npvGeneration_eq_sum]
  apply Finset.sum_pos
  · intro y _
    apply div_pos
    · exact mul_pos hg (pow_pos (by linarith) _)
    · exact pow_pos (by linarith) _
  · exact Finset.nonempty_range_iff.mpr (Nat.pos_iff_ne_zero.mp (lifetimeNat_pos p hL))

theorem calculate_lcoe_mwh (p : LCOEInput) :
    (calculate_lcoe p).lcoe_usd_per_mwh = roundTo 2 (lcoeRaw p) := rfl

theorem lcoe_zero_rate_eval (p : LCOEInput)
    (hg : 0 < p.annual_generation_mwh) (hL : 1 ≤ p.project_lifetime_years)
    (hr : p.discount_rate = 0) (hd : p.degradation_rate = 0)
    (ho : p.annual_opex_usd = 0) (hf : p.annual_fuel_cost_usd = 0) :
    lcoeRaw p =
      p.capex_usd / (p.annual_generation_mwh * (p.project_lifetime_years : ℚ)) := by
  have hN : ((lifetimeNat p : ℚ)) = (p.project_lifetime_years : ℚ) := by
    have hnn : (0 : ℤ) ≤ p.project_lifetime_years := by linarith
    have ht : ((p.project_lifetime_years.toNat : ℤ)) = p.project_lifetime_years :=
      Int.toNat_of_nonneg hnn
    exact_mod_cast congrArg (fun z : ℤ => (z : ℚ)) ht
  have h1 : npvGeneration p = (lifetimeNat p : ℚ) * p.annual_generation_mwh := by
    rw [npvGeneration_eq_sum]
    simp [yearGen, discountFactor, hd, hr, mul_comm]
  have h2 : npvCosts p = p.capex_usd := by
    rw [npvCosts_eq_sum]
    simp [yearOpex, yearFuel, ho, hf]
  have hNpos : (0 : ℚ) < (lifetimeNat p : ℚ) * p.annual_generation_mwh := by
    apply mul_pos _ hg
    exact_mod_cast lifetimeNat_pos p hL
  unfold lcoeRaw
  rw [h1, h2, if_pos hNpos, mul_comm, hN]

theorem lcoe_lifetime_one_eval (p : LCOEInput)
    (hg : 0 < p.annual_generation_mwh) (hL : p.project_lifetime_years = 1)
    (hr : p.discount_rate = 0) (hd : p.degradation_rate = 0)
    (ho : p.annual_opex_usd = 0) (hf : p.annual_fuel_cost_usd = 0) :
    lcoeRaw p = p.capex_usd / p.annual_generation_mwh := by
  rw [lcoe_zero_rate_eval p hg (by rw [hL]) hr hd ho hf, hL]
  norm_num

theorem capacityPos_pos {c : Option PyVal} {cap : ℚ}
    (h : capacityPos c = some cap) : 0 < cap := by
  match c with
  | none => simp [capacityPos] at h
  | some (.vstr s) => simp [capacityPos] at h
  | some .vnone => simp [capacityPos] at h
  | some (.vint n) =>
    by_cases hn : 0 < n
    · rw [capacityPos, if_pos hn, Option.some_inj] at h
      rw [← h]
      exact_mod_cast hn
    · rw [capacityPos, if_neg hn] at h
      exact absurd h (by simp)
  | some (.vfloat q) =>
    by_cases hn : 0 < q
    · rw [capacityPos, if_pos hn, Option.some_inj] at h
      rw [← h]
      exact hn
    · rw [capacityPos, if_neg hn] at h
      exact absurd h (by simp)

theorem calculate_lcoe_capacity_factor (p : LCOEInput) :
    (calculate_lcoe p).capacity_factor =
      match (capacityPos p.capacity_mw).map
          (fun cap => p.annual_generation_mwh / (cap * 8760) * 100) with
      | none => none
      | some v => if v = 0 then none else some (roundTo 1 v) := rfl

/-! ### Claim theorems -/

/-- C2: `validate_input` checks the presence of the four required fields
first (returning `MISSING_REQUIRED_FIELD` naming the first absent one),
then applies each field's type/range check in field-declaration order,
returning on the first violation; the result is exactly one of a single
validation failure or the fully-defaulted validated parameter set. -/
theorem C2_validate_first_violation (d : RawInput) :
    validate_input d =
      match firstViolation d with
      | some e => .error e
      | none => .ok (buildValidated d) := by
  unfold validate_input firstViolation validationChecks
  by_cases h1 : d.capex_usd.isNone = true
  · simp only [List.findSome?, if_pos h1]
  by_cases h2 : d.annual_generation_mwh.isNone = true
  · simp only [List.findSome?, if_neg h1, if_pos h2]
  by_cases h3 : d.project_lifetime_years.isNone = true
  · simp only [List.findSome?, if_neg h1, if_neg h2, if_pos h3]
  by_cases h4 : d.discount_rate.isNone = true
  · simp only [List.findSome?, if_neg h1, if_neg h2, if_neg h3, if_pos h4]
  by_cases h5 : (d.capex_usd.getD PyVal.vnone).numPos = true
  case neg =>
    simp only [List.findSome?, if_neg h1, if_neg h2, if_neg h3, if_neg h4, if_pos h5]
  by_cases h6 : (d.annual_generation_mwh.getD PyVal.vnone).numPos = true
  case neg =>
    simp only [List.findSome?, if_neg h1, if_neg h2, if_neg h3, if_neg h4,
      if_neg (not_not_intro h5), if_pos h6]
  by_cases h7 : (d.project_lifetime_years.getD PyVal.vnone).intBetween 1 50 = true
  case neg =>
    simp only [List.findSome?, if_neg h1, if_neg h2, if_neg h3, if_neg h4,
      if_neg (not_not_intro h5), if_neg (not_not_intro h6), if_pos h7]
  by_cases h8 : (d.discount_rate.getD PyVal.vnone).numBetween 0 0.30 = true
  case neg =>
    simp only [List.findSome?, if_neg h1, if_neg h2, if_neg h3, if_neg h4,
      if_neg (not_not_intro h5), if_neg (not_not_intro h6), if_neg (not_not_intro h7),
      if_pos h8]
  by_cases h9 : (d.annual_opex_usd.getD (PyVal.vint 0)).numNonneg = true
  case neg =>
    simp only [List.findSome?, if_neg h1, if_neg h2, if_neg h3, if_neg h4,
      if_neg (not_not_intro h5), if_neg (not_not_intro h6), if_neg (not_not_intro h7),
      if_neg (not_not_intro h8), if_pos h9]
  by_cases h10 : (d.annual_fuel_cost_usd.getD (PyVal.vint 0)).numNonneg = true
  case neg =>
    simp only [List.findSome?, if_neg h1, if_neg h2, if_neg h3, if_neg h4,
      if_neg (not_not_intro h5), if_neg (not_not_intro h6), if_neg (not_not_intro h7),
      if_neg (not_not_intro h8), if_neg (not_not_intro h9), if_pos h10]
  by_cases h11 : (d.opex_escalation_rate.getD (PyVal.vfloat 0.02)).numBetween 0 0.20 = true
  case neg =>
    simp only [List.findSome?, if_neg h1, if_neg h2, if_neg h3, if_neg h4,
      if_neg (not_not_intro h5), if_neg (not_not_intro h6), if_neg (not_not_intro h7),
      if_neg (not_not_intro h8), if_neg (not_not_intro h9), if_neg (not_not_intro h10),
      if_pos h11]
  by_cases h12 : (d.fuel_escalation_rate.getD (PyVal.vfloat 0.02)).numBetween 0 0.20 = true
  case neg =>
    simp only [List.findSome?, if_neg h1, if_neg h2, if_neg h3, if_neg h4,
      if_neg (not_not_intro h5), if_neg (not_not_intro h6), if_neg (not_not_intro h7),
      if_neg (not_not_intro h8), if_neg (not_not_intro h9), if_neg (not_not_intro h10),
      if_neg (not_not_intro h11), if_pos h12]
  by_cases h13 : (d.degradation_rate.getD (PyVal.vfloat 0.005)).numBetween 0 0.10 = true
  case neg =>
    simp only [List.findSome?, if_neg h1, if_neg h2, if_neg h3, if_neg h4,
      if_neg (not_not_intro h5), if_neg (not_not_intro h6), if_neg (not_not_intro h7),
      if_neg (not_not_intro h8), if_neg (not_not_intro h9), if_neg (not_not_intro h10),
      if_neg (not_not_intro h11), if_neg (not_not_intro h12), if_pos h13]
  simp only [List.findSome?, if_neg h1, if_neg h2, if_neg h3, if_neg h4,
    if_neg (not_not_intro h5), if_neg (not_not_intro h6), if_neg (not_not_intro h7),
    if_neg (not_not_intro h8), if_neg (not_not_intro h9), if_neg (not_not_intro h10),
    if_neg (not_not_intro h11), if_neg (not_not_intro h12), if_neg (not_not_intro h13)]

/-- C3: the engine's LCOE is the guarded ratio
`npv_costs / npv_generation if npv_generation > 0 else 0` (total, hence no
division fault on any parameter record), and when NPV(generation) is 0 the
reported `lcoe_usd_per_mwh` is 0. -/
theorem C3_division_guard (p : LCOEInput) :
    (calculate_lcoe p).lcoe_usd_per_mwh = roundTo 2 (lcoeRaw p) ∧
    (npvGeneration p = 0 → (calculate_lcoe p).lcoe_usd_per_mwh = 0) := by
  refine ⟨rfl, fun h => ?_⟩
  rw [calculate_lcoe_mwh]
  have hz : lcoeRaw p = 0 := by simp [lcoeRaw, h]
  rw [hz, roundTo_zero]

/-- Witness for C3 at a concrete record with zero generation. -/
theorem C3_witness :
    npvGeneration zeroGenParams = 0 ∧
    (calculate_lcoe zeroGenParams).lcoe_usd_per_mwh = 0 := by
  have h0 : npvGeneration zeroGenParams = 0 := by
    rw [npvGeneration_eq_sum]
    norm_num [lifetimeNat, zeroGenParams, yearGen, discountFactor]
  exact ⟨h0, (C3_division_guard zeroGenParams).2 h0⟩

/-- C10: the validator applies no constraint to `capacity_mw` — changing
the capacity of any raw mapping changes neither the validation outcome nor
anything but the copied capacity of the validated set — and the engine
reports no capacity factor when the capacity is absent or numeric but not
positive. -/
theorem C10_capacity_unconstrained :
    (∀ (d : RawInput) (x : Option PyVal),
        validate_input { d with capacity_mw := x } =
          (validate_input d).map (fun v => { v with capacity_mw := x })) ∧
    (∀ p : LCOEInput, p.capacity_mw = none →
        (calculate_lcoe p).capacity_factor = none) ∧
    (∀ (p : LCOEInput) (v : PyVal), p.capacity_mw = some v → v.isNum = true →
        v.toQ ≤ 0 → (calculate_lcoe p).capacity_factor = none) := by
  refine ⟨fun d x => ?_, fun p h => ?_, fun p v hv hn hq => ?_⟩
  · obtain ⟨f1, f2, f3, f4, f5, f6, f7, f8, f9, f10, f11⟩ := d
    unfold validate_input
    dsimp only
    by_cases h1 : f1.isNone = true
    · rw [if_pos h1, if_pos h1]; rfl
    rw [if_neg h1, if_neg h1]
    by_cases h2 : f2.isNone = true
    · rw [if_pos h2, if_pos h2]; rfl
    rw [if_neg h2, if_neg h2]
    by_cases h3 : f3.isNone = true
    · rw [if_pos h3, if_pos h3]; rfl
    rw [if_neg h3, if_neg h3]
    by_cases h4 : f4.isNone = true
    · rw [if_pos h4, if_pos h4]; rfl
    rw [if_neg h4, if_neg h4]
    by_cases h5 : ¬ (f1.getD PyVal.vnone).numPos = true
    · rw [if_pos h5, if_pos h5]; rfl
    rw [if_neg h5, if_neg h5]
    by_cases h6 : ¬ (f2.getD PyVal.vnone).numPos = true
    · rw [if_pos h6, if_pos h6]; rfl
    rw [if_neg h6, if_neg h6]
    by_cases h7 : ¬ (f3.getD PyVal.vnone).intBetween 1 50 = true
    · rw [if_pos h7, if_pos h7]; rfl
    rw [if_neg h7, if_neg h7]
    by_cases h8 : ¬ (f4.getD PyVal.vnone).numBetween 0 0.30 = true
    · rw [if_pos h8, if_pos h8]; rfl
    rw [if_neg h8, if_neg h8]
    by_cases h9 : ¬ (f5.getD (PyVal.vint 0)).numNonneg = true
    · rw [if_pos h9, if_pos h9]; rfl
    rw [if_neg h9, if_neg h9]
    by_cases h10 : ¬ (f6.getD (PyVal.vint 0)).numNonneg = true
    · rw [if_pos h10, if_pos h10]; rfl
    rw [if_neg h10, if_neg h10]
    by_cases h11 : ¬ (f7.getD (PyVal.vfloat 0.02)).numBetween 0 0.20 = true
    · rw [if_pos h11, if_pos h11]; rfl
    rw [if_neg h11, if_neg h11]
    by_cases h12 : ¬ (f8.getD (PyVal.vfloat 0.02)).numBetween 0 0.20 = true
    · rw [if_pos h12, if_pos h12]; rfl
    rw [if_neg h12, if_neg h12]
    by_cases h13 : ¬ (f9.getD (PyVal.vfloat 0.005)).numBetween 0 0.10 = true
    · rw [if_pos h13, if_pos h13]; rfl
    rw [if_neg h13, if_neg h13]
    rfl
  · rw [calculate_lcoe_capacity_factor, h]
    rfl
  · rw [calculate_lcoe_capacity_factor, hv]
    cases v with
    | vint n =>
      have hn0 : ¬ (0 < n) := by
        simp only [PyVal.toQ] at hq
        exact_mod_cast not_lt.mpr hq
      simp [capacityPos, hn0]
    | vfloat q =>
      have hq0 : ¬ (0 < q) := by
        simp only [PyVal.toQ] at hq
        exact not_lt.mpr hq
      simp [capacityPos, hq0]
    | vstr s => simp [PyVal.isNum] at hn
    | vnone => simp [PyVal.isNum] at hn

/-- Witness for C10: a negative capacity passes validation unchanged and
yields no capacity factor. -/
theorem C10_witness :
    validate_input { exMinimalRaw with capacity_mw := some (.vfloat (-5)) } =
      (validate_input exMinimalRaw).map
        (fun v => { v with capacity_mw := some (.vfloat (-5)) }) ∧
    (calculate_lcoe { exThird with capacity_mw := some (.vfloat (-5)) }).capacity_factor
      = none :=
  ⟨C10_capacity_unconstrained.1 exMinimalRaw (some (.vfloat (-5))),
   C10_capacity_unconstrained.2.2 { exThird with capacity_mw := some (.vfloat (-5)) }
     (.vfloat (-5)) rfl rfl (by norm_num [PyVal.toQ])⟩

/-- C1 (amended): for a validated parameter set with zero discount,
degradation, escalation, opex and fuel, the unrounded LCOE
`npv_costs / npv_generation` is exactly `capex / (generation * lifetime)`;
the returned `lcoe_usd_per_mwh` is that ratio rounded to 2 decimals. -/
theorem C1_zero_rate_lcoe (p : LCOEInput) (hv : ValidParams p)
    (hr : p.discount_rate = 0) (hd : p.degradation_rate = 0)
    (hoe : p.opex_escalation_rate = 0) (hfe : p.fuel_escalation_rate = 0)
    (ho : p.annual_opex_usd = 0) (hf : p.annual_fuel_cost_usd = 0) :
    lcoeRaw p =
      p.capex_usd / (p.annual_generation_mwh * (p.project_lifetime_years : ℚ)) ∧
    (calculate_lcoe p).lcoe_usd_per_mwh = roundTo 2
      (p.capex_usd / (p.annual_generation_mwh * (p.project_lifetime_years : ℚ))) := by
  obtain ⟨hc, hg, hL, -⟩ := hv
  have hraw := lcoe_zero_rate_eval p hg hL hr hd ho hf
  exact ⟨hraw, by rw [calculate_lcoe_mwh, hraw]⟩

/-- Witness for C1 at the spec's example: capex 1,000,000, generation
2,000/yr, lifetime 10, zero rates, giving a reported LCOE of exactly 50. -/
theorem C1_witness :
    ValidParams exZeroRate ∧
    (calculate_lcoe exZeroRate).lcoe_usd_per_mwh = 50 := by
  have hv : ValidParams exZeroRate := by norm_num [ValidParams, exZeroRate]
  refine ⟨hv, ?_⟩
  rw [(C1_zero_rate_lcoe exZeroRate hv rfl rfl rfl rfl rfl rfl).2]
  norm_num [exZeroRate, roundTo, roundHalfEven]

/-- Counterexample to C1 as stated: at capex 1000, generation 3, lifetime 1
and zero rates the exact ratio is `1000/3`, but the returned
`lcoe_usd_per_mwh` is the rounded `333.33`, so the field does not equal the
ratio exactly. -/
theorem C1_counterexample :
    ValidParams exThird ∧ exThird.discount_rate = 0 ∧
    exThird.degradation_rate = 0 ∧ exThird.opex_escalation_rate = 0 ∧
    exThird.fuel_escalation_rate = 0 ∧ exThird.annual_opex_usd = 0 ∧
    exThird.annual_fuel_cost_usd = 0 ∧
    (calculate_lcoe exThird).lcoe_usd_per_mwh ≠
      exThird.capex_usd /
        (exThird.annual_generation_mwh * (exThird.project_lifetime_years : ℚ)) := by
  refine ⟨by norm_num [ValidParams, exThird], rfl, rfl, rfl, rfl, rfl, rfl, ?_⟩
  have hraw : lcoeRaw exThird = 1000 / 3 := by
    rw [lcoe_lifetime_one_eval exThird (by norm_num [exThird]) rfl rfl rfl rfl rfl]
    norm_num [exThird]
  rw [calculate_lcoe_mwh, hraw]
  norm_num [exThird, roundTo, roundHalfEven, Int.floor_eq_iff]

/-- C4 (amended): with zero opex and fuel cost (costs are capex only), a
strictly higher discount rate yields a strictly higher unrounded LCOE, all
other parameters equal; at the spec's example (rates 0.05 vs 0.15) the
reported rounded values are strictly ordered as well. -/
theorem C4_discount_monotone :
    (∀ (p : LCOEInput) (r₁ r₂ : ℚ),
        0 < p.capex_usd → 0 < p.annual_generation_mwh →
        1 ≤ p.project_lifetime_years →
        p.degradation_rate < 1 →
        p.annual_opex_usd = 0 → p.annual_fuel_cost_usd = 0 →
        0 ≤ r₁ → r₁ < r₂ →
        lcoeRaw { p with discount_rate := r₁ } <
          lcoeRaw { p with discount_rate := r₂ }) ∧
    (calculate_lcoe { exZeroRate with discount_rate := 0.05 }).lcoe_usd_per_mwh <
      (calculate_lcoe { exZeroRate with discount_rate := 0.15 }).lcoe_usd_per_mwh := by
  constructor
  · intro p r₁ r₂ hc hg hL hd ho hf hr0 hr
    set q₁ : LCOEInput := { p with discount_rate := r₁ } with hq₁
    set q₂ : LCOEInput := { p with discount_rate := r₂ } with hq₂
    have hG2pos : 0 < npvGeneration q₂ :=
      npvGeneration_pos q₂ hg hL hd (by show (-1 : ℚ) < r₂; linarith)
    have hG1pos : 0 < npvGeneration q₁ :=
      npvGeneration_pos q₁ hg hL hd (by show (-1 : ℚ) < r₁; linarith)
    have hGlt : npvGeneration q₂ < npvGeneration q₁ := by
      rw [npvGeneration_eq_sum, npvGeneration_eq_sum]
      have hn1 : lifetimeNat q₁ = lifetimeNat p := rfl
      have hn2 : lifetimeNat q₂ = lifetimeNat p := rfl
      rw [hn1, hn2]
      apply Finset.sum_lt_sum_of_nonempty
      · exact Finset.nonempty_range_iff.mpr
          (Nat.pos_iff_ne_zero.mp (lifetimeNat_pos p hL))
      · intro i _
        have hterm : (0 : ℚ) < yearGen p (i + 1) :=
          mul_pos hg (pow_pos (by linarith) _)
        have hyg1 : yearGen q₁ (i + 1) = yearGen p (i + 1) := rfl
        have hyg2 : yearGen q₂ (i + 1) = yearGen p (i + 1) := rfl
        have hdf : discountFactor q₁ (i + 1) < discountFactor q₂ (i + 1) := by
          unfold discountFactor
          exact pow_lt_pow_left₀ (by show 1 + r₁ < 1 + r₂; linarith)
            (by show (0 : ℚ) ≤ 1 + r₁; linarith) (Nat.succ_ne_zero i)
        have hdf1 : (0 : ℚ) < discountFactor q₁ (i + 1) := by
          unfold discountFactor
          exact pow_pos (by show (0 : ℚ) < 1 + r₁; linarith) _
        rw [hyg1, hyg2]
        exact div_lt_div_of_pos_left hterm hdf1 hdf
    have hcost1 : npvCosts q₁ = p.capex_usd := by
      rw [npvCosts_eq_sum]
      simp [yearOpex, yearFuel, ho, hf]
    have hcost2 : npvCosts q₂ = p.capex_usd := by
      rw [npvCosts_eq_sum]
      simp [yearOpex, yearFuel, ho, hf]
    unfold lcoeRaw
    rw [if_pos hG1pos, if_pos hG2pos, hcost1, hcost2]
    exact div_lt_div_of_pos_left hc hG2pos hGlt
  · rw [calculate_lcoe_mwh, calculate_lcoe_mwh]
    have h1 : lcoeRaw { exZeroRate with discount_rate := 0.05 } =
        416997024455025 / 6439880978201 := by
      unfold lcoeRaw
      rw [npvGeneration_eq_sum, npvCosts_eq_sum]
      norm_num [lifetimeNat, exZeroRate, yearGen, yearOpex, yearFuel,
        discountFactor, show (10 : ℤ).toNat = 10 from rfl, Finset.sum_range_succ]
    have h2 : lcoeRaw { exZeroRate with discount_rate := 0.15 } =
        1035662780341225 / 10395503737883 := by
      unfold lcoeRaw
      rw [npvGeneration_eq_sum, npvCosts_eq_sum]
      norm_num [lifetimeNat, exZeroRate, yearGen, yearOpex, yearFuel,
        discountFactor, show (10 : ℤ).toNat = 10 from rfl, Finset.sum_range_succ]
    rw [h1, h2]
    norm_num [roundTo, roundHalfEven, Int.floor_eq_iff]

/-- Witness for C4 at the spec's example parameters and rates. -/
theorem C4_witness :
    lcoeRaw { exZeroRate with discount_rate := 0.05 } <
      lcoeRaw { exZeroRate with discount_rate := 0.15 } :=
  C4_discount_monotone.1 exZeroRate 0.05 0.15 (by norm_num [exZeroRate])
    (by norm_num [exZeroRate]) (by norm_num [exZeroRate])
    (by norm_num [exZeroRate]) rfl rfl (by norm_num) (by norm_num)

/-- Counterexample to C4 as stated: two validated parameter sets identical
except for the discount rate (0 vs 0.3), where the higher rate yields a
strictly LOWER reported LCOE, because the escalating operating costs are
discounted away faster than the degrading generation. -/
theorem C4_counterexample :
    ValidParams exEscalating ∧
    ValidParams { exEscalating with discount_rate := 0.3 } ∧
    exEscalating.discount_rate < (0.3 : ℚ) ∧
    (calculate_lcoe { exEscalating with discount_rate := 0.3 }).lcoe_usd_per_mwh <
      (calculate_lcoe exEscalating).lcoe_usd_per_mwh := by
  refine ⟨by norm_num [ValidParams, exEscalating],
    by norm_num [ValidParams, exEscalating],
    by norm_num [exEscalating], ?_⟩
  rw [calculate_lcoe_mwh, calculate_lcoe_mwh]
  have h1 : lcoeRaw exEscalating = 3640001 / 2710 := by
    unfold lcoeRaw
    rw [npvGeneration_eq_sum, npvCosts_eq_sum]
    norm_num [lifetimeNat, exEscalating, yearGen, yearOpex, yearFuel,
      discountFactor, show (3 : ℤ).toNat = 3 from rfl, Finset.sum_range_succ]
  have h2 : lcoeRaw { exEscalating with discount_rate := 0.3 } =
      4690002197 / 3670000 := by
    unfold lcoeRaw
    rw [npvGeneration_eq_sum, npvCosts_eq_sum]
    norm_num [lifetimeNat, exEscalating, yearGen, yearOpex, yearFuel,
      discountFactor, show (3 : ℤ).toNat = 3 from rfl, Finset.sum_range_succ]
  rw [h1, h2]
  norm_num [roundTo, roundHalfEven, Int.floor_eq_iff]

/-- C9 (amended): for a validated parameter set (positive generation) the
reported capacity factor is `round((generation / (capacity * 8760)) * 100, 1)`
exactly when the capacity is supplied, numeric and positive, and absent
otherwise; the truthiness suppression acts on the unrounded factor, which is
never zero here, so a positive factor that rounds to 0.0 is still reported. -/
theorem C9_capacity_factor (p : LCOEInput) (hg : 0 < p.annual_generation_mwh) :
    (calculate_lcoe p).capacity_factor =
      match capacityPos p.capacity_mw with
      | some cap => some (roundTo 1 (p.annual_generation_mwh / (cap * 8760) * 100))
      | none => none := by
  rw [calculate_lcoe_capacity_factor]
  cases hcp : capacityPos p.capacity_mw with
  | none => rfl
  | some cap =>
    have hcap : (0 : ℚ) < cap := capacityPos_pos hcp
    have hv : 0 < p.annual_generation_mwh / (cap * 8760) * 100 := by
      apply mul_pos (div_pos hg (mul_pos hcap (by norm_num))) (by norm_num)
    simp only [Option.map_some']
    rw [if_neg (ne_of_gt hv)]

/-- Witness for C9 at the spec's solar example: 100 MW and 200,000 MWh/yr
give a reported capacity factor of exactly 22.8. -/
theorem C9_witness :
    0 < exSolar.annual_generation_mwh ∧
    (calculate_lcoe exSolar).capacity_factor = some 22.8 := by
  refine ⟨by norm_num [exSolar], ?_⟩
  rw [C9_capacity_factor exSolar (by norm_num [exSolar])]
  norm_num [exSolar, capacityPos, roundTo, roundHalfEven, Int.floor_eq_iff]

/-- Counterexample to C9 as stated: a validated project with a huge supplied
capacity has a positive capacity factor that rounds to 0.0 at one decimal,
and the engine reports `0.0` rather than suppressing it to absent. -/
theorem C9_counterexample :
    ValidParams exHugeCapacity ∧
    (calculate_lcoe exHugeCapacity).capacity_factor = some 0 := by
  refine ⟨by norm_num [ValidParams, exHugeCapacity], ?_⟩
  rw [calculate_lcoe_capacity_factor]
  norm_num [exHugeCapacity, capacityPos, roundTo, roundHalfEven, Int.floor_eq_iff]

theorem run_sensitivity_elasticity (b : LCOEInput) (p : ParamName) (v : List ℚ) :
    (run_sensitivity b p v).elasticity =
      roundTo 3
        (if (((sensResults b p v).filter
              (fun r => !r.is_base && r.value_pct_change != 0)).map
              (fun r => r.lcoe_pct_change / r.value_pct_change)).isEmpty then 0
         else (((sensResults b p v).filter
              (fun r => !r.is_base && r.value_pct_change != 0)).map
              (fun r => r.lcoe_pct_change / r.value_pct_change)).sum /
            ((((sensResults b p v).filter
              (fun r => !r.is_base && r.value_pct_change != 0)).map
              (fun r => r.lcoe_pct_change / r.value_pct_change)).length : ℚ)) := rfl

theorem run_sensitivity_results (b : LCOEInput) (p : ParamName) (v : List ℚ) :
    (run_sensitivity b p v).results = sensResults b p v := rfl

theorem sens_base_lcoe : (calculate_lcoe exSensBase).lcoe_usd_per_mwh = 1 := by
  rw [calculate_lcoe_mwh,
    lcoe_lifetime_one_eval exSensBase (by norm_num [exSensBase]) rfl rfl rfl rfl rfl]
  norm_num [exSensBase, roundTo, roundHalfEven, Int.floor_eq_iff]

theorem sens_res_7000 :
    sensResults exSensBase ParamName.annual_generation_mwh [7000] =
      [{ value := 7000, value_pct_change := 600, lcoe_usd_per_mwh := 7/50,
         lcoe_pct_change := -86, is_base := false }] := by
  have hval : validate_input
      (setRaw (toRaw exSensBase) ParamName.annual_generation_mwh 7000) =
      .ok (buildValidated (setRaw (toRaw exSensBase) ParamName.annual_generation_mwh 7000)) := by
    norm_num [validate_input, setRaw, toRaw, exSensBase, PyVal.numPos,
      PyVal.numNonneg, PyVal.numBetween, PyVal.intBetween, PyVal.isNum, PyVal.toQ]
  have hbv : buildValidated (setRaw (toRaw exSensBase) ParamName.annual_generation_mwh 7000) =
      { exSensBase with annual_generation_mwh := 7000 } := by
    norm_num [buildValidated, setRaw, toRaw, exSensBase, PyVal.toQ, PyVal.toInt]
  have hmod : (calculate_lcoe { exSensBase with annual_generation_mwh := 7000 }).lcoe_usd_per_mwh
      = 7/50 := by
    rw [calculate_lcoe_mwh]
    rw [lcoe_lifetime_one_eval _ (by norm_num [exSensBase]) rfl rfl rfl rfl rfl]
    norm_num [exSensBase, roundTo, roundHalfEven, Int.floor_eq_iff]
  have hgp : getParam exSensBase ParamName.annual_generation_mwh = 1000 := rfl
  unfold sensResults
  simp only [List.filterMap, hval, hbv, hgp, sens_base_lcoe]
  simp only [sensPoint, hmod]
  refine congrArg (fun x => [x]) ?_
  have habs : ¬ (|(7000 : ℚ) - 1000| < 0.0001) := by
    rw [show |(7000 : ℚ) - 1000| = 6000 by norm_num]
    norm_num
  norm_num [roundTo, roundHalfEven, Int.floor_eq_iff, habs]

theorem sens_res_1000 :
    sensResults exSensBase ParamName.annual_generation_mwh [1000] =
      [{ value := 1000, value_pct_change := 0, lcoe_usd_per_mwh := 1,
         lcoe_pct_change := 0, is_base := true }] := by
  have hval : validate_input
      (setRaw (toRaw exSensBase) ParamName.annual_generation_mwh 1000) =
      .ok (buildValidated (setRaw (toRaw exSensBase) ParamName.annual_generation_mwh 1000)) := by
    norm_num [validate_input, setRaw, toRaw, exSensBase, PyVal.numPos,
      PyVal.numNonneg, PyVal.numBetween, PyVal.intBetween, PyVal.isNum, PyVal.toQ]
  have hbv : buildValidated (setRaw (toRaw exSensBase) ParamName.annual_generation_mwh 1000) =
      { exSensBase with annual_generation_mwh := 1000 } := by
    norm_num [buildValidated, setRaw, toRaw, exSensBase, PyVal.toQ, PyVal.toInt]
  have hmod : (calculate_lcoe { exSensBase with annual_generation_mwh := 1000 }).lcoe_usd_per_mwh
      = 1 := by
    rw [calculate_lcoe_mwh]
    rw [lcoe_lifetime_one_eval _ (by norm_num [exSensBase]) rfl rfl rfl rfl rfl]
    norm_num [exSensBase, roundTo, roundHalfEven, Int.floor_eq_iff]
  have hgp : getParam exSensBase ParamName.annual_generation_mwh = 1000 := rfl
  unfold sensResults
  simp only [List.filterMap, hval, hbv, hgp, sens_base_lcoe]
  simp only [sensPoint, hmod]
  refine congrArg (fun x => [x]) ?_
  have habs : |(1000 : ℚ) - 1000| < 0.0001 := by norm_num
  norm_num [roundTo, roundHalfEven, Int.floor_eq_iff, habs]

/-- C7 (amended): the reported elasticity is the arithmetic mean, over all
retained points that are not the base point and whose recorded
value-percentage-change is nonzero, of recorded LCOE-percent-change over
recorded value-percent-change, rounded to 3 decimals; it is 0 when no such
points exist, and the identified base point is always excluded. -/
theorem C7_elasticity_mean (base : LCOEInput) (param : ParamName) (values : List ℚ) :
    (run_sensitivity base param values).elasticity =
      roundTo 3
        (if (((run_sensitivity base param values).results.filter
              (fun r => !r.is_base && r.value_pct_change != 0)).map
              (fun r => r.lcoe_pct_change / r.value_pct_change)).isEmpty then 0
         else (((run_sensitivity base param values).results.filter
              (fun r => !r.is_base && r.value_pct_change != 0)).map
              (fun r => r.lcoe_pct_change / r.value_pct_change)).sum /
            ((((run_sensitivity base param values).results.filter
              (fun r => !r.is_base && r.value_pct_change != 0)).map
              (fun r => r.lcoe_pct_change / r.value_pct_change)).length : ℚ)) ∧
    (((run_sensitivity base param values).results.filter
        (fun r => !r.is_base && r.value_pct_change != 0)) = [] →
      (run_sensitivity base param values).elasticity = 0) := by
  constructor
  · rfl
  · intro h
    have h' : (sensResults base param values).filter
        (fun r => !r.is_base && r.value_pct_change != 0) = [] := h
    rw [run_sensitivity_elasticity, h']
    norm_num [roundTo_zero]

/-- Witness for C7: a sweep retaining only the base point itself has no
eligible elasticity points and reports elasticity 0. -/
theorem C7_witness :
    ((run_sensitivity exSensBase ParamName.annual_generation_mwh [1000]).results.filter
        (fun r => !r.is_base && r.value_pct_change != 0)) = [] ∧
    (run_sensitivity exSensBase ParamName.annual_generation_mwh [1000]).elasticity = 0 := by
  have hfil : ((run_sensitivity exSensBase ParamName.annual_generation_mwh [1000]).results.filter
      (fun r => !r.is_base && r.value_pct_change != 0)) = [] := by
    rw [run_sensitivity_results, sens_res_1000]
    rfl
  exact ⟨hfil,
    (C7_elasticity_mean exSensBase ParamName.annual_generation_mwh [1000]).2 hfil⟩

/-- Counterexample to C7 as stated: sweeping generation from 1000 to 7000
records one eligible point with ratio `-86/600 = -43/300`, whose exact mean
`-43/300` is not three-decimal; the reported elasticity is the rounded
`-0.143`, which differs from the mean. -/
theorem C7_counterexample :
    (run_sensitivity exSensBase ParamName.annual_generation_mwh [7000]).elasticity
      = -143/1000 ∧
    (((run_sensitivity exSensBase ParamName.annual_generation_mwh [7000]).results.filter
        (fun r => !r.is_base && r.value_pct_change != 0)).map
        (fun r => r.lcoe_pct_change / r.value_pct_change)).sum /
      ((((run_sensitivity exSensBase ParamName.annual_generation_mwh [7000]).results.filter
        (fun r => !r.is_base && r.value_pct_change != 0)).map
        (fun r => r.lcoe_pct_change / r.value_pct_change)).length : ℚ) = -43/300 ∧
    ((-143 : ℚ)/1000) ≠ -43/300 := by
  refine ⟨?_, ?_, by norm_num⟩
  · rw [run_sensitivity_elasticity, sens_res_7000]
    norm_num [List.filter_cons, List.filter_nil, bne_iff_ne, roundTo, roundHalfEven,
      Int.floor_eq_iff]
  · rw [run_sensitivity_results, sens_res_7000]
    norm_num [List.filter_cons, List.filter_nil, bne_iff_ne]

theorem cntFrom_succ (maxv step c : ℚ) (hs : 0 < step) (hc : c ≤ maxv + 0.0001) :
    cntFrom maxv step c = cntFrom maxv step (c + step) + 1 := by
  unfold cntFrom
  rw [if_pos hc]
  by_cases h2 : c + step ≤ maxv + 0.0001
  · rw [if_pos h2]
    have hx1 : (1 : ℚ) ≤ (maxv + 0.0001 - c) / step := by
      rw [one_le_div hs]
      linarith
    have hfl : ⌊(maxv + 0.0001 - (c + step)) / step⌋ =
        ⌊(maxv + 0.0001 - c) / step⌋ - 1 := by
      have heq : (maxv + 0.0001 - (c + step)) / step =
          (maxv + 0.0001 - c) / step - 1 := by
        field_simp
        ring
      rw [heq, Int.floor_sub_one]
    have h1le : 1 ≤ ⌊(maxv + 0.0001 - c) / step⌋ :=
      Int.le_floor.mpr (by exact_mod_cast hx1)
    rw [hfl]
    omega
  · rw [if_neg h2]
    have hx0 : (0 : ℚ) ≤ (maxv + 0.0001 - c) / step :=
      div_nonneg (by linarith) hs.le
    have hx1 : (maxv + 0.0001 - c) / step < 1 := by
      rw [div_lt_one hs]
      linarith
    have hfl : ⌊(maxv + 0.0001 - c) / step⌋ = 0 := by
      rw [Int.floor_eq_zero_iff]
      exact ⟨by exact_mod_cast hx0, by exact_mod_cast hx1⟩
    rw [hfl]
    rfl

theorem rangeLoop_eq (maxv step : ℚ) (hs : 0 < step) :
    ∀ (n : ℕ) (c : ℚ), maxv + 0.0001 < c + n * step →
      rangeLoop maxv step n c =
        (List.range (cntFrom maxv step c)).map (fun (k : ℕ) => roundTo 6 (c + (k : ℚ) * step)) := by
  intro n
  induction n with
  | zero =>
    intro c hterm
    norm_num at hterm
    have hnc : ¬ (c ≤ maxv + 0.0001) := by linarith
    unfold rangeLoop cntFrom
    rw [if_neg hnc]
    rfl
  | succ n ih =>
    intro c hterm
    by_cases hc : c ≤ maxv + 0.0001
    · have hterm' : maxv + 0.0001 < (c + step) + n * step := by
        push_cast at hterm
        linarith [hterm]
      rw [show rangeLoop maxv step (n + 1) c =
          (if c ≤ maxv + 0.0001 then
            roundTo 6 c :: rangeLoop maxv step n (c + step) else []) from rfl]
      rw [if_pos hc, ih (c + step) hterm', cntFrom_succ maxv step c hs hc,
        List.range_succ_eq_map]
      simp only [List.map_cons, List.map_map]
      refine congrArg₂ List.cons (by norm_num) ?_
      refine List.map_congr_left ?_
      intro k _
      show roundTo 6 (c + step + (k : ℚ) * step) = roundTo 6 (c + ((k + 1 : ℕ) : ℚ) * step)
      push_cast
      ring_nf
    · rw [show rangeLoop maxv step (n + 1) c =
          (if c ≤ maxv + 0.0001 then
            roundTo 6 c :: rangeLoop maxv step n (c + step) else []) from rfl]
      rw [if_neg hc]
      unfold cntFrom
      rw [if_neg hc]
      rfl

theorem fuel_sufficient (minv maxv step : ℚ) (hs : 0 < step) :
    maxv + 0.0001 < minv + (rangeFuel minv maxv step : ℚ) * step := by
  unfold rangeFuel
  by_cases hy : 0 ≤ ⌈(maxv + 0.0001 - minv) / step⌉ + 1
  · have hcast : (((⌈(maxv + 0.0001 - minv) / step⌉ + 1).toNat : ℚ)) =
        ((⌈(maxv + 0.0001 - minv) / step⌉ : ℚ) + 1) := by
      exact_mod_cast congrArg (fun z : ℤ => (z : ℚ)) (Int.toNat_of_nonneg hy)
    rw [hcast]
    have hy' : (maxv + 0.0001 - minv) / step ≤ (⌈(maxv + 0.0001 - minv) / step⌉ : ℚ) :=
      Int.le_ceil _
    have hkey : (maxv + 0.0001 - minv) / step * step = maxv + 0.0001 - minv :=
      div_mul_cancel₀ _ (ne_of_gt hs)
    nlinarith [hy', hkey, hs]
  · push_neg at hy
    have htn : (⌈(maxv + 0.0001 - minv) / step⌉ + 1).toNat = 0 := by omega
    rw [htn]
    have hy2 : (maxv + 0.0001 - minv) / step ≤ -1 := by
      have : (⌈(maxv + 0.0001 - minv) / step⌉ : ℚ) ≤ -1 := by exact_mod_cast (by omega : ⌈(maxv + 0.0001 - minv) / step⌉ ≤ -1)
      linarith [Int.le_ceil ((maxv + 0.0001 - minv) / step)]
    rw [div_le_iff₀ hs] at hy2
    push_cast
    linarith

theorem rangeCount_iff (minv maxv step : ℚ) (hs : 0 < step) (k : ℕ) :
    k < rangeCount minv maxv step ↔ minv + (k : ℚ) * step ≤ maxv + 0.0001 := by
  unfold rangeCount cntFrom
  by_cases hm : minv ≤ maxv + 0.0001
  · rw [if_pos hm]
    have hx0 : (0 : ℚ) ≤ (maxv + 0.0001 - minv) / step :=
      div_nonneg (by linarith) hs.le
    have hfl0 : 0 ≤ ⌊(maxv + 0.0001 - minv) / step⌋ := Int.floor_nonneg.mpr hx0
    constructor
    · intro hk
      have hk' : (k : ℤ) ≤ ⌊(maxv + 0.0001 - minv) / step⌋ := by omega
      have hk2 : (k : ℚ) ≤ (maxv + 0.0001 - minv) / step :=
        le_trans (by exact_mod_cast hk') (Int.floor_le _)
      rw [le_div_iff₀ hs] at hk2
      linarith
    · intro hk
      have hk2 : (k : ℚ) ≤ (maxv + 0.0001 - minv) / step := by
        rw [le_div_iff₀ hs]
        linarith
      have hk' : (k : ℤ) ≤ ⌊(maxv + 0.0001 - minv) / step⌋ :=
        Int.le_floor.mpr (by exact_mod_cast hk2)
      omega
  · rw [if_neg hm]
    push_neg at hm
    constructor
    · omega
    · intro hk
      exfalso
      have hnn : (0 : ℚ) ≤ (k : ℚ) * step := mul_nonneg (by positivity) hs.le
      linarith


/-- C8: for a positive step, the `min,max,step` custom-range branch returns
the arithmetic sequence `min, min+step, ...` of every point not exceeding
`max + 0.0001`, each rounded to 6 decimals: it equals the map of
`round(min + k*step, 6)` over `k < rangeCount`, and `k < rangeCount` holds
exactly when `min + k*step ≤ max + 0.0001`. -/
theorem C8_custom_range (minv maxv step : ℚ) (hs : 0 < step) :
    generate_range_custom [minv, maxv, step] =
      (List.range (rangeCount minv maxv step)).map
        (fun (k : ℕ) => roundTo 6 (minv + (k : ℚ) * step)) ∧
    ∀ k : ℕ, k < rangeCount minv maxv step ↔
      minv + (k : ℚ) * step ≤ maxv + 0.0001 := by
  constructor
  · show rangeLoop maxv step (rangeFuel minv maxv step) minv = _
    exact rangeLoop_eq maxv step hs _ minv (fuel_sufficient minv maxv step hs)
  · exact rangeCount_iff minv maxv step hs

/-- Witness for C8 at the spec's example: the custom range
`0.04,0.14,0.02` yields exactly the six points 0.04 through 0.14. -/
theorem C8_witness :
    (0 : ℚ) < 0.02 ∧
    generate_range_custom [0.04, 0.14, 0.02] = [0.04, 0.06, 0.08, 0.10, 0.12, 0.14] := by
  refine ⟨by norm_num, ?_⟩
  rw [(C8_custom_range 0.04 0.14 0.02 (by norm_num)).1]
  have hcnt : rangeCount 0.04 0.14 0.02 = 6 := by
    unfold rangeCount cntFrom
    rw [if_pos (by norm_num)]
    rw [show ((0.14 : ℚ) + 0.0001 - 0.04) / 0.02 = 5.005 by norm_num]
    rw [show ⌊(5.005 : ℚ)⌋ = 5 by norm_num [Int.floor_eq_iff]]
    rfl
  rw [hcnt, show List.range 6 = [0, 1, 2, 3, 4, 5] from rfl]
  simp only [List.map_cons, List.map_nil]
  norm_num [roundTo, roundHalfEven, Int.floor_eq_iff]

theorem filter_orderedInsert (q : ℚ) (a : OkEntry) (l : List OkEntry) :
    (List.orderedInsert lcoeLE a l).filter
        (fun e => decide (e.lcoe_usd_per_mwh = q)) =
      if a.lcoe_usd_per_mwh = q then
        a :: l.filter (fun e => decide (e.lcoe_usd_per_mwh = q))
      else l.filter (fun e => decide (e.lcoe_usd_per_mwh = q)) := by
  induction l with
  | nil =>
    by_cases hq : a.lcoe_usd_per_mwh = q
    · simp [List.orderedInsert, List.filter, hq]
    · simp [List.orderedInsert, List.filter, hq]
  | cons b t ih =>
    by_cases hab : lcoeLE a b
    · by_cases hq : a.lcoe_usd_per_mwh = q
      · simp [List.orderedInsert, hab, List.filter_cons, hq]
      · simp [List.orderedInsert, hab, List.filter_cons, hq]
    · have hblt : b.lcoe_usd_per_mwh < a.lcoe_usd_per_mwh := lt_of_not_ge hab
      by_cases hq : a.lcoe_usd_per_mwh = q
      · have hbq : ¬ (b.lcoe_usd_per_mwh = q) := by
          rw [← hq]
          exact ne_of_lt hblt
        simp [List.orderedInsert, hab, List.filter_cons, hq, hbq, ih]
      · simp [List.orderedInsert, hab, List.filter_cons, hq, ih]

theorem filter_insertionSort (q : ℚ) (l : List OkEntry) :
    (List.insertionSort lcoeLE l).filter
        (fun e => decide (e.lcoe_usd_per_mwh = q)) =
      l.filter (fun e => decide (e.lcoe_usd_per_mwh = q)) := by
  induction l with
  | nil => rfl
  | cons a t ih =>
    rw [List.insertionSort, filter_orderedInsert q a _]
    by_cases hq : a.lcoe_usd_per_mwh = q
    · rw [if_pos hq, ih, List.filter_cons, if_pos (by simp [hq])]
    · rw [if_neg hq, ih, List.filter_cons, if_neg (by simp [hq])]

theorem compare_projects_rankings (ps : List Project) (h : successesOf ps ≠ []) :
    (compare_projects ps).rankings =
      (rankedOf ps).enum.map (mkRanked (bestLcoeOf ps) (avgLcoeOf ps)) := by
  unfold compare_projects
  rw [if_neg (fun hh => h (List.isEmpty_iff.mp hh))]

theorem rankings_map_core (ps : List Project) (h : successesOf ps ≠ []) :
    ((compare_projects ps).rankings).map RankedEntry.core = rankedOf ps := by
  rw [compare_projects_rankings ps h, List.map_map]
  have hcomp : RankedEntry.core ∘ mkRanked (bestLcoeOf ps) (avgLcoeOf ps) =
      Prod.snd := by
    funext ie
    rfl
  rw [hcomp, List.enum_map_snd]


theorem analyze_rawProj (s : String) (c : ℚ) (hc : 0 < c) :
    analyze_project ⟨s, rawProj c⟩ =
      .ok ⟨s, .vstr "generic", roundTo 2 (c / 1000)⟩ := by
  have hval : validate_input (rawProj c) = .ok (buildValidated (rawProj c)) := by
    norm_num [validate_input, rawProj, PyVal.numPos, PyVal.numNonneg,
      PyVal.numBetween, PyVal.intBetween, PyVal.isNum, PyVal.toQ, hc]
  have hbv : buildValidated (rawProj c) =
      ⟨c, 1000, 1, 0, 0, 0, 0, 0, 0, none, .vstr "generic"⟩ := by
    norm_num [buildValidated, rawProj, PyVal.toQ, PyVal.toInt]
  have hl : (calculate_lcoe
      (⟨c, 1000, 1, 0, 0, 0, 0, 0, 0, none, .vstr "generic"⟩ : LCOEInput)).lcoe_usd_per_mwh
      = roundTo 2 (c / 1000) := by
    rw [calculate_lcoe_mwh, lcoe_lifetime_one_eval _ (by norm_num) rfl rfl rfl rfl rfl]
  show (match validate_input (rawProj c) with
    | .error e => Analyzed.fail ⟨s, e, (rawProj c).technology.getD (.vstr "unknown")⟩
    | .ok v => Analyzed.ok ⟨s, v.technology, (calculate_lcoe v).lcoe_usd_per_mwh⟩) = _
  rw [hval, hbv]
  simp only [hl]


theorem succ_three :
    successesOf exThreeProjects =
      [⟨"p1", .vstr "generic", 70⟩, ⟨"p2", .vstr "generic", 40⟩,
       ⟨"p3", .vstr "generic", 55⟩] := by
  have h70 : analyze_project ⟨"p1", rawProj 70000⟩ =
      .ok ⟨"p1", .vstr "generic", 70⟩ := by
    rw [analyze_rawProj "p1" 70000 (by norm_num)]
    norm_num [roundTo, roundHalfEven, Int.floor_eq_iff]
  have h40 : analyze_project ⟨"p2", rawProj 40000⟩ =
      .ok ⟨"p2", .vstr "generic", 40⟩ := by
    rw [analyze_rawProj "p2" 40000 (by norm_num)]
    norm_num [roundTo, roundHalfEven, Int.floor_eq_iff]
  have h55 : analyze_project ⟨"p3", rawProj 55000⟩ =
      .ok ⟨"p3", .vstr "generic", 55⟩ := by
    rw [analyze_rawProj "p3" 55000 (by norm_num)]
    norm_num [roundTo, roundHalfEven, Int.floor_eq_iff]
  unfold successesOf exThreeProjects
  simp [h70, h40, h55, Analyzed.okEntry]

theorem ranked_three :
    rankedOf exThreeProjects =
      [⟨"p2", .vstr "generic", 40⟩, ⟨"p3", .vstr "generic", 55⟩,
       ⟨"p1", .vstr "generic", 70⟩] := by
  rw [rankedOf, succ_three]
  norm_num [List.insertionSort, List.orderedInsert, lcoeLE]

theorem best_three : bestLcoeOf exThreeProjects = 40 := by
  rw [bestLcoeOf, ranked_three]
  rfl

theorem avg_three : avgLcoeOf exThreeProjects = 55 := by
  rw [avgLcoeOf, succ_three]
  norm_num

theorem rankings_three :
    (compare_projects exThreeProjects).rankings.map
        (fun e => (e.source, e.rank, e.lcoe_usd_per_mwh, e.lcoe_vs_best_pct)) =
      [("p2", 1, 40, 0), ("p3", 2, 55, 37.5), ("p1", 3, 70, 75)] := by
  have hne : successesOf exThreeProjects ≠ [] := by
    rw [succ_three]
    simp
  rw [compare_projects_rankings exThreeProjects hne, ranked_three, best_three,
    avg_three]
  norm_num [List.enum, List.enumFrom, mkRanked, roundTo, roundHalfEven,
    Int.floor_eq_iff]


theorem succ_two :
    successesOf exTwoProjects =
      [⟨"a", .vstr "generic", 30⟩, ⟨"b", .vstr "generic", 40⟩] := by
  have h30 : analyze_project ⟨"a", rawProj 30000⟩ =
      .ok ⟨"a", .vstr "generic", 30⟩ := by
    rw [analyze_rawProj "a" 30000 (by norm_num)]
    norm_num [roundTo, roundHalfEven, Int.floor_eq_iff]
  have h40 : analyze_project ⟨"b", rawProj 40000⟩ =
      .ok ⟨"b", .vstr "generic", 40⟩ := by
    rw [analyze_rawProj "b" 40000 (by norm_num)]
    norm_num [roundTo, roundHalfEven, Int.floor_eq_iff]
  unfold successesOf exTwoProjects
  simp [h30, h40, Analyzed.okEntry]

theorem bad_analyze :
    analyze_project badProject =
      .fail ⟨"bad", ⟨"INVALID_CAPEX", "capex_usd"⟩, .vstr "unknown"⟩ := by
  have hval : validate_input { rawProj 0 with capex_usd := some (.vfloat (-5)) } =
      .error ⟨"INVALID_CAPEX", "capex_usd"⟩ := by
    norm_num [validate_input, rawProj, PyVal.numPos, PyVal.isNum, PyVal.toQ]
  show (match validate_input { rawProj 0 with capex_usd := some (.vfloat (-5)) } with
    | .error e => Analyzed.fail ⟨"bad", e,
        ({ rawProj 0 with capex_usd := some (.vfloat (-5)) } : RawInput).technology.getD
          (.vstr "unknown")⟩
    | .ok v => Analyzed.ok ⟨"bad", v.technology, (calculate_lcoe v).lcoe_usd_per_mwh⟩) = _
  rw [hval]
  rfl

/-- C5 (amended): for every input with at least one validated project, the
rankings are sorted ascending by `lcoe_usd_per_mwh`, the entry at index `i`
has rank `i + 1`, the multiset of entries with any given LCOE keeps its
input order (Python's sort is stable), and each entry's `lcoe_vs_best_pct`
is `round((its LCOE - best LCOE) / best LCOE * 100, 1)` (0 when the best
LCOE is not positive); for three projects with LCOEs 40, 55, 70 the ranks
are 1, 2, 3 in LCOE order regardless of input order, with deltas 0, 37.5
and 75. -/
theorem C5_ranking :
    (∀ ps : List Project, successesOf ps ≠ [] →
      List.Pairwise (fun a b : RankedEntry =>
        a.lcoe_usd_per_mwh ≤ b.lcoe_usd_per_mwh) (compare_projects ps).rankings ∧
      (∀ i (h : i < (compare_projects ps).rankings.length),
        ((compare_projects ps).rankings.get ⟨i, h⟩).rank = i + 1) ∧
      (∀ q : ℚ, ((compare_projects ps).rankings.map RankedEntry.core).filter
          (fun e => decide (e.lcoe_usd_per_mwh = q)) =
        (successesOf ps).filter (fun e => decide (e.lcoe_usd_per_mwh = q))) ∧
      (∀ e ∈ (compare_projects ps).rankings, e.lcoe_vs_best_pct =
        if 0 < bestLcoeOf ps then
          roundTo 1 ((e.lcoe_usd_per_mwh - bestLcoeOf ps) / bestLcoeOf ps * 100)
        else 0)) ∧
    (compare_projects exThreeProjects).rankings.map
        (fun e => (e.source, e.rank, e.lcoe_usd_per_mwh, e.lcoe_vs_best_pct)) =
      [("p2", 1, 40, 0), ("p3", 2, 55, 37.5), ("p1", 3, 70, 75)] := by
  refine ⟨fun ps hne => ?_, rankings_three⟩

  refine ⟨?_, ?_, ?_, ?_⟩
  · have hs : List.Pairwise lcoeLE (rankedOf ps) :=
      List.sorted_insertionSort lcoeLE (successesOf ps)
    rw [← rankings_map_core ps hne] at hs
    exact (List.pairwise_map (f := RankedEntry.core)).mp hs
  · intro i h
    have h' : i < ((rankedOf ps).enum.map
        (mkRanked (bestLcoeOf ps) (avgLcoeOf ps))).length := by
      rw [← compare_projects_rankings ps hne]
      exact h
    have := compare_projects_rankings ps hne
    rw [List.get_eq_getElem]
    simp only [compare_projects_rankings ps hne, List.getElem_map, List.getElem_enum]
    rfl
  · intro q
    rw [rankings_map_core ps hne]
    unfold rankedOf
    exact filter_insertionSort q _
  · intro e he
    rw [compare_projects_rankings ps hne] at he
    obtain ⟨ie, hie, rfl⟩ := List.mem_map.mp he
    rfl

/-- Witness for C5: the stability equation instantiated on the
three-project example at LCOE 40. -/
theorem C5_witness :
    successesOf exThreeProjects ≠ [] ∧
    ((compare_projects exThreeProjects).rankings.map RankedEntry.core).filter
        (fun e => decide (e.lcoe_usd_per_mwh = 40)) =
      (successesOf exThreeProjects).filter
        (fun e => decide (e.lcoe_usd_per_mwh = 40)) := by
  have hne : successesOf exThreeProjects ≠ [] := by
    rw [succ_three]
    simp
  exact ⟨hne, (C5_ranking.1 exThreeProjects hne).2.2.1 40⟩

/-- Counterexample to C5 as stated: with best LCOE 30 and second LCOE 40
the stored `lcoe_vs_best_pct` is the rounded `33.3`, which differs from the
exact `(40 - 30) / 30 * 100 = 100/3`. -/
theorem C5_counterexample :
    (compare_projects exTwoProjects).rankings.map (fun e => e.lcoe_vs_best_pct) =
      [0, 33.3] ∧
    ((40 : ℚ) - 30) / 30 * 100 ≠ 33.3 := by
  constructor
  · have hne : successesOf exTwoProjects ≠ [] := by
      rw [succ_two]
      simp
    have hrk : rankedOf exTwoProjects =
        [⟨"a", .vstr "generic", 30⟩, ⟨"b", .vstr "generic", 40⟩] := by
      rw [rankedOf, succ_two]
      norm_num [List.insertionSort, List.orderedInsert, lcoeLE]
    have hbest : bestLcoeOf exTwoProjects = 30 := by
      rw [bestLcoeOf, hrk]
      rfl
    have havg : avgLcoeOf exTwoProjects = 35 := by
      rw [avgLcoeOf, succ_two]
      norm_num
    rw [compare_projects_rankings exTwoProjects hne, hrk, hbest, havg]
    norm_num [List.enum, List.enumFrom, mkRanked, roundTo, roundHalfEven,
      Int.floor_eq_iff]
  · norm_num

/-- C6: with no validated project, `compare_projects` returns a failure
with code `NO_VALID_PROJECTS` carrying the full failure list; every project
whose analysis fails appears in the output's failure list with its error;
and with at least one validated project the batch succeeds. -/
theorem C6_no_valid_projects (ps : List Project) :
    (successesOf ps = [] →
      (compare_projects ps).success = false ∧
      (compare_projects ps).errorCode = some "NO_VALID_PROJECTS" ∧
      (compare_projects ps).failed_projects = some (failuresOf ps)) ∧
    (∀ pr ∈ ps, ∀ f, analyze_project pr = .fail f →
      f ∈ (compare_projects ps).failed_projects.getD []) ∧
    (successesOf ps ≠ [] →
      (compare_projects ps).success = true ∧
      (compare_projects ps).errorCode = none) := by
  refine ⟨fun h => ?_, fun pr hpr f hf => ?_, fun h => ?_⟩
  · unfold compare_projects
    rw [if_pos (by rw [List.isEmpty_iff]; exact h)]
    exact ⟨rfl, rfl, rfl⟩
  · have hmem : f ∈ failuresOf ps := by
      unfold failuresOf
      refine List.mem_filterMap.mpr ⟨analyze_project pr, List.mem_map_of_mem _ hpr, ?_⟩
      rw [hf]
      rfl
    unfold compare_projects
    by_cases hs : (successesOf ps).isEmpty
    · rw [if_pos hs]
      simpa using hmem
    · rw [if_neg hs]
      have hne : ¬ ((failuresOf ps).isEmpty = true) := by
        rw [List.isEmpty_iff]
        intro hnil
        rw [hnil] at hmem
        exact absurd hmem (List.not_mem_nil f)
      show f ∈ (if (failuresOf ps).isEmpty then none else some (failuresOf ps)).getD []
      rw [if_neg hne]
      simpa using hmem
  · unfold compare_projects
    rw [if_neg (fun hh => h (List.isEmpty_iff.mp hh))]
    exact ⟨rfl, rfl⟩

/-- Witness for C6: an all-failing batch reports `NO_VALID_PROJECTS`, and
in a mixed batch the failing project appears in the failure list while the
batch succeeds. -/
theorem C6_witness :
    (compare_projects [badProject]).errorCode = some "NO_VALID_PROJECTS" ∧
    (⟨"bad", ⟨"INVALID_CAPEX", "capex_usd"⟩, .vstr "unknown"⟩ : FailedEntry) ∈
      (compare_projects exMixedProjects).failed_projects.getD [] ∧
    (compare_projects exMixedProjects).success = true := by
  have hbadsucc : successesOf [badProject] = [] := by
    unfold successesOf
    simp [bad_analyze, Analyzed.okEntry]
  have hmixsucc : successesOf exMixedProjects ≠ [] := by
    have hgood : analyze_project ⟨"good", rawProj 40000⟩ =
        .ok ⟨"good", .vstr "generic", 40⟩ := by
      rw [analyze_rawProj "good" 40000 (by norm_num)]
      norm_num [roundTo, roundHalfEven, Int.floor_eq_iff]
    unfold successesOf exMixedProjects
    simp [bad_analyze, hgood, Analyzed.okEntry]
  refine ⟨((C6_no_valid_projects [badProject]).1 hbadsucc).2.1, ?_,
    ((C6_no_valid_projects exMixedProjects).2.2 hmixsucc).1⟩
  exact (C6_no_valid_projects exMixedProjects).2.1 badProject
    (by simp [exMixedProjects]) _ bad_analyze

end LcoeCalc
